/-
Verification development for the mangascraper repository.

The file shallowly embeds the two source files
  src/src/functions/automateBrowser.ts  (browser session manager)
  src/unnamed/part_000                  (MangaPark adapter: search, getMangaMeta,
                                         getLatestUpdates, getPages, module-level memo)
as executable Lean definitions, and proves properties of them.

JavaScript machine numbers are modelled by the type JSNum below: NaN, the two
infinities, and finite values represented as exact rationals (the executable
type Q, kept in lowest terms by every operation).  All numeric literals
appearing in the repository parse exactly into this fragment, and for the
magnitudes exercised here the 2-decimal rounding of toFixed agrees with
binary64 semantics.  Number parsing models the decimal-literal fragment of the
ECMAScript StringNumericLiteral grammar (sign, digits, fraction, exponent,
Infinity); hex, octal and binary literals, which cannot occur in the scraped
rating labels, are mapped to NaN.
-/
import Mathlib

set_option maxRecDepth 8000

/-! ### Executable rationals -/

/-- An executable rational: numerator and positive denominator, kept in lowest
terms by every operation below.  Used instead of Mathlib rationals so that all
arithmetic reduces inside the kernel. -/
structure Q where
  num : ℤ
  den : ℕ
deriving DecidableEq

/-- Normalize a fraction: fix the sign into the numerator and divide out the
gcd.  A zero denominator (never produced by the embedded code) maps to the junk
value 0/0. -/
def Q.norm (n d : ℤ) : Q :=
  if d = 0 then ⟨0, 0⟩
  else
    let n' := if d < 0 then -n else n
    let d' := (if d < 0 then -d else d).toNat
    let g := n'.natAbs.gcd d'
    ⟨n' / (g : ℤ), d' / g⟩

instance (n : ℕ) : OfNat Q n := ⟨⟨(n : ℤ), 1⟩⟩

def Q.ofInt (n : ℤ) : Q := ⟨n, 1⟩

def Q.neg (a : Q) : Q := ⟨-a.num, a.den⟩

def Q.add (a b : Q) : Q :=
  Q.norm (a.num * (b.den : ℤ) + b.num * (a.den : ℤ)) ((a.den : ℤ) * (b.den : ℤ))

def Q.sub (a b : Q) : Q := Q.add a (Q.neg b)

def Q.mul (a b : Q) : Q := Q.norm (a.num * b.num) ((a.den : ℤ) * (b.den : ℤ))

def Q.div (a b : Q) : Q := Q.norm (a.num * (b.den : ℤ)) ((a.den : ℤ) * b.num)

instance : LT Q := ⟨fun a b => a.num * (b.den : ℤ) < b.num * (a.den : ℤ)⟩

instance : LE Q := ⟨fun a b => a.num * (b.den : ℤ) ≤ b.num * (a.den : ℤ)⟩

instance (a b : Q) : Decidable (a < b) :=
  inferInstanceAs (Decidable (a.num * (b.den : ℤ) < b.num * (a.den : ℤ)))

instance (a b : Q) : Decidable (a ≤ b) :=
  inferInstanceAs (Decidable (a.num * (b.den : ℤ) ≤ b.num * (a.den : ℤ)))

/-- Floor of a rational (division rounding toward negative infinity). -/
def Q.floor (a : Q) : ℤ := Int.fdiv a.num (a.den : ℤ)

/-- One half, used for round-to-nearest. -/
def Q.half : Q := ⟨1, 2⟩

/-- Multiply by an integer power of ten (for parsed exponents). -/
def Q.mulPow10 (a : Q) (e : ℤ) : Q :=
  if 0 ≤ e then Q.norm (a.num * (10 : ℤ) ^ e.toNat) (a.den : ℤ)
  else Q.norm a.num ((a.den : ℤ) * (10 : ℤ) ^ (-e).toNat)

/-! ### JavaScript number model -/

/-- A JavaScript number: NaN, +Infinity, -Infinity, or a finite value. -/
inductive JSNum where
  | nan
  | inf
  | ninf
  | fin (q : Q)
deriving DecidableEq

/-- JavaScript division, as used by the rating extractor
(`numerator / denominator`): NaN propagates, x/0 is NaN when x = 0 and a
signed infinity otherwise. -/
def jsDiv : JSNum → JSNum → JSNum
  | JSNum.nan, _ => JSNum.nan
  | _, JSNum.nan => JSNum.nan
  | JSNum.inf, JSNum.inf => JSNum.nan
  | JSNum.inf, JSNum.ninf => JSNum.nan
  | JSNum.ninf, JSNum.inf => JSNum.nan
  | JSNum.ninf, JSNum.ninf => JSNum.nan
  | JSNum.inf, JSNum.fin q => if 0 ≤ q.num then JSNum.inf else JSNum.ninf
  | JSNum.ninf, JSNum.fin q => if 0 ≤ q.num then JSNum.ninf else JSNum.inf
  | JSNum.fin _, JSNum.inf => JSNum.fin 0
  | JSNum.fin _, JSNum.ninf => JSNum.fin 0
  | JSNum.fin a, JSNum.fin b =>
    if b.num = 0 then
      if a.num = 0 then JSNum.nan else if 0 < a.num then JSNum.inf else JSNum.ninf
    else JSNum.fin (Q.div a b)

/-- JavaScript multiplication (used for `* 100` in the percentage formula). -/
def jsMul : JSNum → JSNum → JSNum
  | JSNum.nan, _ => JSNum.nan
  | _, JSNum.nan => JSNum.nan
  | JSNum.inf, JSNum.inf => JSNum.inf
  | JSNum.inf, JSNum.ninf => JSNum.ninf
  | JSNum.ninf, JSNum.inf => JSNum.ninf
  | JSNum.ninf, JSNum.ninf => JSNum.inf
  | JSNum.inf, JSNum.fin q => if q.num = 0 then JSNum.nan else if 0 < q.num then JSNum.inf else JSNum.ninf
  | JSNum.fin q, JSNum.inf => if q.num = 0 then JSNum.nan else if 0 < q.num then JSNum.inf else JSNum.ninf
  | JSNum.ninf, JSNum.fin q => if q.num = 0 then JSNum.nan else if 0 < q.num then JSNum.ninf else JSNum.inf
  | JSNum.fin q, JSNum.ninf => if q.num = 0 then JSNum.nan else if 0 < q.num then JSNum.ninf else JSNum.inf
  | JSNum.fin a, JSNum.fin b => JSNum.fin (Q.mul a b)

/-- JavaScript `<` on numbers (any comparison involving NaN is false). -/
def jsLt : JSNum → JSNum → Bool
  | JSNum.nan, _ => false
  | _, JSNum.nan => false
  | JSNum.inf, _ => false
  | JSNum.ninf, JSNum.ninf => false
  | JSNum.ninf, _ => true
  | JSNum.fin _, JSNum.inf => true
  | JSNum.fin _, JSNum.ninf => false
  | JSNum.fin a, JSNum.fin b => decide (a < b)

/-! ### Number parsing (the `Number(...)` coercion) -/

/-- Whitespace characters stripped by the `Number` coercion. -/
def isWSChar (c : Char) : Bool :=
  c = ' ' || c = '\t' || c = '\n' || c = '\r'

/-- Drop leading whitespace. -/
def dropWS : List Char → List Char
  | [] => []
  | c :: cs => if isWSChar c then dropWS cs else c :: cs

/-- Trim whitespace from both ends. -/
def trimChars (cs : List Char) : List Char :=
  (dropWS (dropWS cs).reverse).reverse

/-- Decimal-digit test. -/
def isDigitCh (c : Char) : Bool := '0' ≤ c && c ≤ '9'

/-- Take the longest leading run of decimal digits. -/
def takeDigits : List Char → List Char × List Char
  | [] => ([], [])
  | c :: cs =>
    if isDigitCh c then
      let r := takeDigits cs
      (c :: r.1, r.2)
    else ([], c :: cs)

/-- Numeric value of a digit string. -/
def digitsToNat (ds : List Char) : Nat :=
  ds.foldl (fun a c => a * 10 + (c.toNat - 48)) 0

/-- Parse `digits [. digits]` (at least one digit overall) to a rational. -/
def parseMantissa (cs : List Char) : Option (Q × List Char) :=
  let ip := takeDigits cs
  match ip.2 with
  | '.' :: rest =>
    let fp := takeDigits rest
    if ip.1.isEmpty && fp.1.isEmpty then none
    else
      some (Q.add (Q.ofInt (digitsToNat ip.1 : ℤ))
              (Q.div (Q.ofInt (digitsToNat fp.1 : ℤ)) (Q.ofInt ((10 : ℤ) ^ fp.1.length))),
            fp.2)
  | other =>
    if ip.1.isEmpty then none
    else some (Q.ofInt (digitsToNat ip.1 : ℤ), other)

/-- Parse an optionally signed decimal integer (for exponents). -/
def parseSignedInt (cs : List Char) : Option (ℤ × List Char) :=
  let core := fun (ds : List Char) =>
    let d := takeDigits ds
    if d.1.isEmpty then none else some ((digitsToNat d.1 : ℤ), d.2)
  match cs with
  | '+' :: rest => core rest
  | '-' :: rest => (core rest).map (fun p => (-p.1, p.2))
  | other => core other

/-- Parse an optional `e`/`E` exponent part. -/
def parseExponent (cs : List Char) : Option (ℤ × List Char) :=
  match cs with
  | 'e' :: rest => parseSignedInt rest
  | 'E' :: rest => parseSignedInt rest
  | other => some (0, other)

/-- The `Number(string)` coercion on the decimal-literal fragment:
empty or all-whitespace strings give 0, `Infinity` with optional sign gives an
infinity, a signed decimal literal gives its exact value, anything else NaN. -/
def jsNumberOfChars (cs0 : List Char) : JSNum :=
  let cs := trimChars cs0
  if cs.isEmpty then JSNum.fin 0
  else
    let signed : Bool × List Char :=
      match cs with
      | '-' :: rest => (true, rest)
      | '+' :: rest => (false, rest)
      | _ => (false, cs)
    if signed.2 = ['I', 'n', 'f', 'i', 'n', 'i', 't', 'y'] then
      if signed.1 then JSNum.ninf else JSNum.inf
    else
      match parseMantissa signed.2 with
      | none => JSNum.nan
      | some m =>
        match parseExponent m.2 with
        | none => JSNum.nan
        | some e =>
          if e.2.isEmpty then
            JSNum.fin (Q.mulPow10 (if signed.1 then Q.neg m.1 else m.1) e.1)
          else JSNum.nan

/-- `Number` applied to a possibly-undefined value: `Number(undefined)` is NaN. -/
def jsNumberOfOption (o : Option String) : JSNum :=
  match o with
  | none => JSNum.nan
  | some s => jsNumberOfChars s.data

/-! ### Number formatting -/

/-- Decimal digits of a natural number (fuel-based recursion). -/
def natDigitsAux : Nat → Nat → List Char
  | 0, _ => []
  | fuel + 1, n =>
    if n < 10 then [Char.ofNat (48 + n)]
    else natDigitsAux fuel (n / 10) ++ [Char.ofNat (48 + n % 10)]

/-- Render a natural number in decimal. -/
def natToStr (n : Nat) : String := String.mk (natDigitsAux (n + 1) n)

/-- `toFixed(2)` of a nonnegative rational: round to the nearest hundredth,
ties away from zero, and print with exactly two fraction digits. -/
def fixed2OfNonneg (q : Q) : String :=
  let n := (Q.add (Q.mul 100 q) Q.half).floor.toNat
  natToStr (n / 100) ++ "." ++
    (if n % 100 < 10 then "0" ++ natToStr (n % 100) else natToStr (n % 100))

/-- JavaScript `x.toFixed(2)` (non-finite values print via toString). -/
def toFixed2 : JSNum → String
  | JSNum.nan => "NaN"
  | JSNum.inf => "Infinity"
  | JSNum.ninf => "-Infinity"
  | JSNum.fin q => if q < 0 then "-" ++ fixed2OfNonneg (Q.neg q) else fixed2OfNonneg q

/-- Number of times `p` divides `n` (first argument is fuel). -/
def stripFactor (p : Nat) : Nat → Nat → Nat × Nat
  | 0, n => (0, n)
  | fuel + 1, n =>
    if n ≠ 0 ∧ n % p = 0 ∧ 1 < p then
      let r := stripFactor p fuel (n / p)
      (r.1 + 1, r.2)
    else (0, n)

/-- Left-pad a digit list with zeros to length `k`. -/
def padZeros (k : Nat) (ds : List Char) : List Char :=
  List.replicate (k - ds.length) '0' ++ ds

/-- Decimal rendering of a positive rational whose reduced denominator is of
the form 2^a * 5^b, i.e. exactly the finite-decimal values produced by parsing
decimal literals.  Such values round-trip through JavaScript toString. -/
def finToDecimalString (q : Q) : String :=
  let d := q.den
  let s2 := stripFactor 2 d d
  let s5 := stripFactor 5 s2.2 s2.2
  if s5.2 = 1 then
    let k := max s2.1 (stripFactor 5 d d).1
    let m := (Q.mul q (Q.ofInt ((10 : ℤ) ^ k))).num.toNat
    if k = 0 then natToStr m
    else
      natToStr (m / 10 ^ k) ++ "." ++
        String.mk (padZeros k (natDigitsAux (m % 10 ^ k + 1) (m % 10 ^ k)))
  else "[non-decimal]"

/-- JavaScript number-to-string coercion (template-literal interpolation),
on the finite-decimal fragment. -/
def jsNumToString : JSNum → String
  | JSNum.nan => "NaN"
  | JSNum.inf => "Infinity"
  | JSNum.ninf => "-Infinity"
  | JSNum.fin q =>
    if q.num = 0 then "0"
    else if q < 0 then "-" ++ finToDecimalString (Q.neg q)
    else finToDecimalString q

/-- Insert a thousands separator before every third digit, operating on the
reversed (least-significant-first) digit list. -/
def insertGroupSepsRev : List Char → Nat → List Char
  | [], _ => []
  | c :: cs, i =>
    if 0 < i ∧ i % 3 = 0 then ',' :: c :: insertGroupSepsRev cs (i + 1)
    else c :: insertGroupSepsRev cs (i + 1)

/-- Render a natural number with en-US thousands grouping. -/
def groupDigitsStr (n : Nat) : String :=
  String.mk ((insertGroupSepsRev ((natDigitsAux (n + 1) n).reverse) 0).reverse)

/-- JavaScript `x.toLocaleString()` under the en-US default locale: grouped
integer part and at most three (rounded) fraction digits. -/
def jsToLocaleString : JSNum → String
  | JSNum.nan => "NaN"
  | JSNum.inf => "∞"
  | JSNum.ninf => "-∞"
  | JSNum.fin q =>
    let sign := if q < 0 then "-" else ""
    let a := if q < 0 then Q.neg q else q
    let ip := a.floor.toNat
    let f3 := (Q.add (Q.mul 1000 (Q.sub a (Q.ofInt a.floor))) Q.half).floor.toNat
    if 1000 ≤ f3 then sign ++ groupDigitsStr (ip + 1)
    else if f3 = 0 then sign ++ groupDigitsStr ip
    else
      sign ++ groupDigitsStr ip ++ "." ++
        String.mk ((padZeros 3 (natDigitsAux (f3 + 1) f3)).reverse.dropWhile (fun c => c = '0')).reverse


/-! ### Sibling run-grouping (part_000 lines 82, 201-225)

The adapter walks a sequence of sibling elements, appending each non-marker
element's text to a module-level mutable buffer `memo` and, on reaching a
marker element, emitting the buffered texts as one completed group and
resetting the buffer.  The authors pass recognizes a marker by its text
containing the label `Authors/Artists:`; the genres pass recognizes a marker
as an anchor whose next sibling is not an anchor. -/

/-- A sibling element as seen by the two grouping passes: its text content and
whether its next DOM sibling is an anchor element. -/
structure SibElem where
  text : String
  nextIsAnchor : Bool
deriving DecidableEq

/-- List-prefix test on characters. -/
def listIsPrefixOf : List Char → List Char → Bool
  | [], _ => true
  | _ :: _, [] => false
  | a :: as, b :: bs => a = b && listIsPrefixOf as bs

/-- Substring test on characters (models a literal-pattern `String.match`). -/
def listIsInfixOf (needle : List Char) : List Char → Bool
  | [] => listIsPrefixOf needle []
  | c :: cs => listIsPrefixOf needle (c :: cs) || listIsInfixOf needle cs

/-- Marker test of the authors pass: `text.match('Authors/Artists:')` is
non-null, i.e. the label occurs in the element text (part_000 line 205). -/
def authorsMarker (e : SibElem) : Bool :=
  listIsInfixOf "Authors/Artists:".data e.text.data

/-- Marker test of the genres pass: the anchor's next sibling is not an anchor
(part_000 line 218, negated branch). -/
def genresMarker (e : SibElem) : Bool := !e.nextIsAnchor

/-- The run-grouping walk (part_000 lines 201-212 and 214-225): second result
component is the value of the module-level `memo` buffer after the walk. -/
def runGrouping (isMarker : SibElem → Bool) : List SibElem → List String → List (List String) × List String
  | [], buf => ([], buf)
  | e :: es, buf =>
    if isMarker e then
      let r := runGrouping isMarker es []
      (buf :: r.1, r.2)
    else
      runGrouping isMarker es (buf ++ [e.text])

/-- Segments of the sibling sequence delimited by markers, in document order;
always nonempty (the last segment is the trailing run after the final
marker). -/
def splitRuns (isMarker : SibElem → Bool) : List SibElem → List (List String)
  | [] => [[]]
  | e :: es =>
    if isMarker e then [] :: splitRuns isMarker es
    else
      match splitRuns isMarker es with
      | [] => [[e.text]]
      | g :: gs => (e.text :: g) :: gs

/-- The groups the specification describes: the ordered sequence of groups of
non-marker texts collected between consecutive markers, with the trailing
unterminated buffer discarded (no implicit final group).  Stated in the
specification's words, for comparison with `runGrouping`. -/
def specRunGroups (isMarker : SibElem → Bool) (xs : List SibElem) : List (List String) :=
  (splitRuns isMarker xs).dropLast

/-- Prepend a pre-existing buffer onto the first segment. -/
def consHdBuf (buf : List String) : List (List String) → List (List String)
  | [] => []
  | g :: gs => (buf ++ g) :: gs

/-! ### Rating sub-extraction (part_000 lines 227-239 and 309-320)

Both `search` and `getMangaMeta` split a rating label on single spaces and
read the numerator at token index 1, the denominator at index 3 and the vote
count at index 6, producing a MangaRating record. -/

/-- The MangaRating record shape (catalog type of the repository). -/
structure MangaRating where
  sourceRating : String
  voteCount : String
  ratingPercentage : String
  ratingStars : String
deriving DecidableEq

/-- JavaScript `split(' ')`: split on single space characters, keeping empty
segments. -/
def splitOnSpace : List Char → List (List Char)
  | [] => [[]]
  | c :: cs =>
    let r := splitOnSpace cs
    if c = ' ' then [] :: r
    else
      match r with
      | [] => [[c]]
      | s :: ss => (c :: s) :: ss

/-- `s.split(' ')` on strings. -/
def jsSplitSpace (s : String) : List String := (splitOnSpace s.data).map String.mk

/-- `divEl.attr('title')?.split(' ') || []`: a missing attribute yields the
empty token list. -/
def ratingTokensOf (title : Option String) : List String :=
  match title with
  | none => []
  | some s => jsSplitSpace s

/-- The shared rating sub-extractor: numerator from token 1, denominator from
token 3, vote count from token 6; percentage is `(num / den) * 100` printed
with `toFixed(2)` and a percent sign, stars are the interpolation
`num / den`. -/
def ratingFromTokens (ts : List String) : MangaRating :=
  let numerator := jsNumberOfOption ts[1]?
  let denominator := jsNumberOfOption ts[3]?
  { sourceRating := "MangaPark.net"
    voteCount := jsToLocaleString (jsNumberOfOption ts[6]?)
    ratingPercentage := toFixed2 (jsMul (jsDiv numerator denominator) (JSNum.fin 100)) ++ "%"
    ratingStars := jsNumToString numerator ++ " / " ++ jsNumToString denominator }

/-! ### JavaScript value model for the argument checks -/

/-- The JavaScript values a caller can pass where the adapter expects a page
number or a URL string. -/
inductive JSVal where
  | undefined
  | null
  | number (n : JSNum)
  | str (s : String)
deriving DecidableEq

/-- JavaScript `typeof`. -/
def jsTypeof : JSVal → String
  | JSVal.undefined => "undefined"
  | JSVal.null => "object"
  | JSVal.number _ => "number"
  | JSVal.str _ => "string"

/-- JavaScript loose equality with null (`x == null`): true exactly for null
and undefined. -/
def jsEqNull : JSVal → Bool
  | JSVal.undefined => true
  | JSVal.null => true
  | _ => false

/-- The destructuring default `const { page = 1 } = filters` (part_000 line
127): only `undefined` is replaced by 1; null and every other value pass
through. -/
def pageDefault : JSVal → JSVal
  | JSVal.undefined => JSVal.number (JSNum.fin 1)
  | v => v

/-- The two page checks at the start of the `search` promise executor
(part_000 lines 184-185), in source order: first reject any non-number page,
then reject a null page. -/
def searchValidate (pv : JSVal) : Option String :=
  if (jsTypeof pv == "number") = false then some "\"page\" must be a number"
  else if jsEqNull pv then some "Missing argument \"page\" is required"
  else none

/-! ### The search extraction pass (part_000 lines 183-258) -/

/-- The parts of a parsed search-results document that `search` reads: the
title anchors, the sibling sequences walked by the authors and genres passes,
the `div.rate` title attributes, and the cover image sources. -/
structure SearchDoc where
  titleURLs : List (String × String)
  authorsEls : List SibElem
  genresEls : List SibElem
  ratingTitles : List (Option String)
  coverImages : List String
deriving DecidableEq

/-- One assembled search record (part_000 lines 245-252).  Fields read from a
parallel array at an out-of-range index are `undefined`, modelled as none. -/
structure SearchRecord where
  title : String
  url : String
  authors : Option (List String)
  coverImage : Option String
  genres : Option (List String)
  rating : Option MangaRating
deriving DecidableEq

/-- Zip the extractor outputs positionally over the title list (part_000
lines 245-252). -/
def searchRecordsOf (ts : List (String × String)) (as gs : List (List String))
    (cs : List String) (rs : List MangaRating) : List SearchRecord :=
  (List.range ts.length).map (fun i =>
    let t := (ts.get? i).getD ("", "")
    { title := t.1, url := t.2, authors := as.get? i, coverImage := cs.get? i,
      genres := gs.get? i, rating := rs.get? i })

/-- The full extraction phase of `search` over a parsed document: the authors
pass runs first, then the genres pass, both reading and writing the
module-level `memo` buffer (the first component of the state is the record
list, the second the buffer value left behind for the next pass or call). -/
def searchExtract (d : SearchDoc) (memo0 : List String) : List SearchRecord × List String :=
  let a := runGrouping authorsMarker d.authorsEls memo0
  let g := runGrouping genresMarker d.genresEls a.2
  let ratings := d.ratingTitles.map (fun t => ratingFromTokens (ratingTokensOf t))
  (searchRecordsOf d.titleURLs a.1 g.1 d.coverImages ratings, g.2)


/-! ### Result channel (success / failure helpers)

The helpers `success(data, callback, res)` and `failure(err, callback, rej)`
live in src/functions/success.ts and src/functions/failure.ts, which are not
under src/ in this snapshot; only their call sites are.  They are modelled
from the spec below. -/

/-- How a public operation's promise settles. -/
inductive Settle (α : Type) where
  | resolved (v : α)
  | rejected (e : String)
deriving DecidableEq

/-- An observable delivery on one of the two result channels: the legacy
callback or the returned promise. -/
inductive Event (α : Type) where
  | cbOk (v : α)
  | cbErr (m : String)
  | resolveP (v : α)
  | rejectP (m : String)
deriving DecidableEq

/-- Modelled from the spec: the `success` helper of src/functions/success.ts
(not under src/) invokes the legacy callback with the value and resolves the
promise with the same value. -/
def successEvents {α : Type} (v : α) : List (Event α) :=
  [Event.cbOk v, Event.resolveP v]

/-- Modelled from the spec: the `failure` helper of src/functions/failure.ts
(not under src/) invokes the legacy callback with the error and rejects the
promise with the same error. -/
def failureEvents {α : Type} (m : String) : List (Event α) :=
  [Event.cbErr m, Event.rejectP m]

/-! ### Browser session manager (src/src/functions/automateBrowser.ts)

`automateBrowser(options, callback)` launches a browser inside a try block,
reads the first page, sets the viewport, injects the preload script, then runs
the callback with `.finally(async () => await browser.close())`; any error is
rethrown wrapped in `Error(e)`.  Note the function takes exactly two
parameters: no request-interception step exists on any path. -/

/-- The externally visible steps `automateBrowser` can take, in order of
occurrence in the source.  `setRequestInterception` is listed so that its
absence from every trace is expressible. -/
inductive BAction where
  | launch
  | pages
  | setViewport
  | evalOnNewDocument
  | runCallback
  | closeBrowser
  | setRequestInterception
deriving DecidableEq

/-- The environment's responses to each awaited step of one `automateBrowser`
invocation: whether launch and each setup step succeed, and what the callback
does (return a value or throw). -/
structure BrowserBehavior (α : Type) where
  launchOk : Bool
  pagesOk : Bool
  viewportOk : Bool
  preloadOk : Bool
  callbackResult : Except String α

/-- `throw Error(e)` in the catch block: the rethrown error wraps the cause. -/
def jsWrapErr (e : String) : String := "Error: " ++ e

/-- One run of `automateBrowser`: the ordered trace of steps taken, and the
settlement of the returned promise.  A step that throws aborts the try block
(later steps do not run); `browser.close()` runs only through the `.finally`
attached to the callback's promise. -/
def automateBrowserRun {α : Type} (b : BrowserBehavior α) : List BAction × Except String α :=
  if b.launchOk = false then ([BAction.launch], Except.error (jsWrapErr "launch failed"))
  else if b.pagesOk = false then
    ([BAction.launch, BAction.pages], Except.error (jsWrapErr "pages failed"))
  else if b.viewportOk = false then
    ([BAction.launch, BAction.pages, BAction.setViewport], Except.error (jsWrapErr "setViewport failed"))
  else if b.preloadOk = false then
    ([BAction.launch, BAction.pages, BAction.setViewport, BAction.evalOnNewDocument],
     Except.error (jsWrapErr "evaluateOnNewDocument failed"))
  else
    match b.callbackResult with
    | Except.ok v =>
      ([BAction.launch, BAction.pages, BAction.setViewport, BAction.evalOnNewDocument,
        BAction.runCallback, BAction.closeBrowser], Except.ok v)
    | Except.error e =>
      ([BAction.launch, BAction.pages, BAction.setViewport, BAction.evalOnNewDocument,
        BAction.runCallback, BAction.closeBrowser], Except.error (jsWrapErr e))

/-! ### The public operations' argument checks and result delivery -/

/-- `search` (part_000 lines 183-258): validate the page argument, then fetch
and extract.  The result pairs the settlement with the number of network
fetches started (`readHtml` calls). -/
def searchRun (pv : JSVal) (memo0 : List String) (net : Except String SearchDoc) :
    Settle (List SearchRecord) × Nat :=
  match searchValidate pv with
  | some m => (Settle.rejected m, 0)
  | none =>
    match net with
    | Except.ok d => (Settle.resolved (searchExtract d memo0).1, 1)
    | Except.error e => (Settle.rejected e, 1)

/-- The channel events `search` emits, one `success`/`failure` call per
execution path (part_000 lines 184-185, 254, 256). -/
def searchEvents (pv : JSVal) (memo0 : List String) (net : Except String SearchDoc) :
    List (Event (List SearchRecord)) :=
  match searchValidate pv with
  | some m => failureEvents m
  | none =>
    match net with
    | Except.ok d => successEvents (searchExtract d memo0).1
    | Except.error e => failureEvents e

/-- `getMangaMeta` (part_000 lines 279-292): reject a null/undefined URL
before calling `automateBrowser`; otherwise the browser session's result is
delivered (the downstream cheerio field extraction of lines 294-450 does not
affect the validation-ordering claims and the fetched html is passed through
as the resolved value).  The second component counts browser launch
attempts. -/
def getMangaMetaRun (url : JSVal) (b : BrowserBehavior String) : Settle String × Nat :=
  if jsEqNull url then (Settle.rejected "Missing argument \"url\" is required", 0)
  else
    let r := automateBrowserRun b
    (match r.2 with
     | Except.ok html => Settle.resolved html
     | Except.error e => Settle.rejected e,
     r.1.count BAction.launch)

/-- `getPages` (part_000 lines 546-572): reject a null/undefined URL before
calling `automateBrowser`; otherwise deliver the page-script's string list. -/
def getPagesRun (url : JSVal) (b : BrowserBehavior (List String)) :
    Settle (List String) × Nat :=
  if jsEqNull url then (Settle.rejected "Missing argument \"url\" is required", 0)
  else
    let r := automateBrowserRun b
    (match r.2 with
     | Except.ok data => Settle.resolved data
     | Except.error e => Settle.rejected e,
     r.1.count BAction.launch)

/-- The channel events `getPages` emits (part_000 lines 547, 568, 570). -/
def getPagesEvents (url : JSVal) (b : BrowserBehavior (List String)) :
    List (Event (List String)) :=
  if jsEqNull url then failureEvents "Missing argument \"url\" is required"
  else
    match (automateBrowserRun b).2 with
    | Except.ok data => successEvents data
    | Except.error e => failureEvents e

/-- `getLatestUpdates` (part_000 lines 464-508): reject `page < 1` before the
`readHtml` fetch; the extraction loop over the fetched document is abstracted
by the environment's response value. -/
def getLatestUpdatesRun {α : Type} (page : JSNum) (net : Except String α) :
    Settle α × Nat :=
  if jsLt page (JSNum.fin 1) then
    (Settle.rejected "Argument \"page\" must be greater than or equal to 1", 0)
  else
    match net with
    | Except.ok v => (Settle.resolved v, 1)
    | Except.error e => (Settle.rejected e, 1)

/-! ### Resource interception policy

`automateBrowser` as present under src/ accepts no policy argument (see
above); the request-interception evaluator itself is code of this repository
that is not under src/ — only its callers are (`getMangaMeta` line 291 and
`getPages` lines 562-566 pass serialized rule sets).  The evaluator is
therefore modelled from the spec. -/

/-- A domain rule of the serialized interception form
`domains: (method, value)`. -/
structure DomainRule where
  method : String
  value : List String
deriving DecidableEq

/-- A resource-type rule of the serialized interception form
`resource: (method, type)`. -/
structure ResourceRule where
  method : String
  type : List String
deriving DecidableEq

/-- A serialized interception rule set. -/
structure NetworkConfig where
  domains : Option DomainRule
  resource : Option ResourceRule
deriving DecidableEq

/-- String-prefix test. -/
def strIsPrefixOf (p s : String) : Bool := listIsPrefixOf p.data s.data

/-- Whether a block-mode domain rule matches the request URL (the URL starts
with one of the listed prefixes). -/
def domainBlockMatch (cfg : NetworkConfig) (url : String) : Bool :=
  match cfg.domains with
  | some d => d.method == "block" && d.value.any (fun v => strIsPrefixOf v url)
  | none => false

/-- Modelled from the spec: the Resource Interception Policy evaluator (the
request-level gate of the Browser Session Manager, not present under src/).
Spec section 4.1: first a matching block-mode domain rule denies and
short-circuits; else an unblock-mode resource rule allows exactly the listed
resource types and denies the rest; a block-mode resource rule denies exactly
the listed types; with no resource rule at all the request is allowed. -/
def evalRequestAllowed (cfg : NetworkConfig) (url : String) (rtype : String) : Bool :=
  if domainBlockMatch cfg url then false
  else
    match cfg.resource with
    | none => true
    | some r =>
      if r.method == "unblock" then r.type.contains rtype
      else if r.method == "block" then !(r.type.contains rtype)
      else true

/-- The blocked-URL prefix list of `getPages` (part_000 lines 525-544). -/
def BLOCKED_REQUESTS : List String :=
  ["https://v2.mangapark.net/cdn-cgi/scripts/5c5dd728/cloudflare-static/email-decode.min.js",
   "https://cdnjs.cloudflare.com/ajax/libs/jqueryui/",
   "https://cdnjs.cloudflare.com/ajax/libs/jquery_lazyload/",
   "https://cdnjs.cloudflare.com/ajax/libs/axios/",
   "https://static.mangapark.net/v2/js/global.js",
   "https://static.mangapark.net/v2/js/manga-global.js",
   "https://v2.mangapark.net/book-list/",
   "https://mangapark.net/misc/",
   "https://mangaparkcom.disqus.com/",
   "https://www.googletagmanager.com/",
   "https://hm.baidu.com/",
   "https://s7.addthis.com/",
   "https://tags.crwdcntrl.net/",
   "https://cdn.run-syndicate.com/",
   "https://go.bebi.com/",
   "https://st.bebi.com/",
   "https://run-syndicate.com/",
   "https://platform.bidgear.com/"]

/-- The rule set `getPages` supplies (part_000 lines 562-566): a block-mode
domain rule over BLOCKED_REQUESTS together with an unblock-mode resource rule
for documents and scripts. -/
def getPagesNetworkConfig : NetworkConfig :=
  { domains := some { method := "block", value := BLOCKED_REQUESTS },
    resource := some { method := "unblock", type := ["document", "script"] } }

/-! ### Concrete fixtures used by the claim theorems -/

/-- The sibling sequence A, marker, B, C, marker, D of the specification,
with the authors-pass marker label. -/
def c1Example : List SibElem :=
  [⟨"A", false⟩, ⟨"Authors/Artists:", false⟩, ⟨"B", false⟩, ⟨"C", false⟩,
   ⟨"Authors/Artists:", false⟩, ⟨"D", false⟩]

/-- A run where the viewport step throws after a successful launch. -/
def viewportFailBehavior : BrowserBehavior String :=
  { launchOk := true, pagesOk := true, viewportOk := false, preloadOk := true,
    callbackResult := Except.ok "html" }

/-- A run where setup succeeds and the page script throws. -/
def callbackThrowBehavior : BrowserBehavior String :=
  { launchOk := true, pagesOk := true, viewportOk := true, preloadOk := true,
    callbackResult := Except.error "navigation timeout" }

/-- A search document whose authors run ends with an unterminated fragment
Zed, followed by a genres run. -/
def leakDoc : SearchDoc :=
  { titleURLs := [("Title", "https://v2.mangapark.net/manga/x")],
    authorsEls := [⟨"Alice", false⟩, ⟨"Authors/Artists:", false⟩, ⟨"Zed", false⟩],
    genresEls := [⟨"Horror", true⟩, ⟨"Action", false⟩],
    ratingTitles := [], coverImages := [] }

/-- A search document with an unterminated authors fragment and no genre
anchors at all, so the leftover survives the whole extraction. -/
def idemDoc : SearchDoc :=
  { titleURLs := [("Title", "https://v2.mangapark.net/manga/x")],
    authorsEls := [⟨"A", false⟩, ⟨"Authors/Artists:", false⟩, ⟨"D", false⟩],
    genresEls := [], ratingTitles := [], coverImages := [] }

/-- Rating tokens with numerator 4.3 at index 1, denominator 5 at index 3 and
vote count 12345 at index 6. -/
def ratingExampleTokens : List String :=
  ["Average", "4.3", "/", "5", "out", "of", "12345"]

/-- Rating tokens with a zero denominator and a nonzero numerator. -/
def zeroDenTokens : List String := ["Average", "4.3", "/", "0", "out", "of", "10"]

/-- A browser environment where everything succeeds (for witnesses). -/
def idleBrowser : BrowserBehavior String :=
  { launchOk := true, pagesOk := true, viewportOk := true, preloadOk := true,
    callbackResult := Except.ok "html" }

/-- A browser environment for the page-list operation (for witnesses). -/
def idleBrowserPages : BrowserBehavior (List String) :=
  { launchOk := true, pagesOk := true, viewportOk := true, preloadOk := true,
    callbackResult := Except.ok [] }

lemma splitRuns_ne_nil (isM : SibElem → Bool) (xs : List SibElem) :
    splitRuns isM xs ≠ [] := by
  cases xs with
  | nil => simp [splitRuns]
  | cons e es =>
    simp only [splitRuns]
    split
    · simp
    · split <;> simp

lemma consHdBuf_nil_buf (L : List (List String)) : consHdBuf [] L = L := by
  cases L <;> simp [consHdBuf]

lemma runGrouping_fst (isM : SibElem → Bool) (xs : List SibElem) : ∀ buf,
    (runGrouping isM xs buf).1 = (consHdBuf buf (splitRuns isM xs)).dropLast := by
  induction xs with
  | nil =>
    intro buf
    simp [runGrouping, splitRuns, consHdBuf]
  | cons e es ih =>
    intro buf
    by_cases hm : isM e
    · obtain ⟨g, gs, hg⟩ := List.exists_cons_of_ne_nil (splitRuns_ne_nil isM es)
      simp only [runGrouping, hm, if_pos, splitRuns, ih [], hg, consHdBuf,
        List.nil_append, List.append_nil]
      rfl
    · obtain ⟨g, gs, hg⟩ := List.exists_cons_of_ne_nil (splitRuns_ne_nil isM es)
      have h1 : runGrouping isM (e :: es) buf = runGrouping isM es (buf ++ [e.text]) := by
        simp [runGrouping, hm]
      have h2 : splitRuns isM (e :: es) = (e.text :: g) :: gs := by
        simp [splitRuns, hm, hg]
      rw [h1, ih (buf ++ [e.text]), h2, hg]
      simp [consHdBuf, List.append_assoc]

/-- Division by NaN yields NaN whatever the dividend. -/
lemma jsDiv_nan_right (x : JSNum) : jsDiv x JSNum.nan = JSNum.nan := by
  cases x <;> rfl

/-! ### Claim theorems -/

/-- C1: for every sibling sequence walked by the run-grouping extractor
starting from an empty buffer, the result is the ordered sequence of groups of
non-marker texts collected between consecutive markers; on the sequence
A, marker, B, C, marker, D it yields the groups A and B, C, and the trailing
unterminated buffer containing D is discarded from the result (no implicit
final group). -/
theorem runGrouping_matches_marker_split :
    (∀ (isM : SibElem → Bool) (xs : List SibElem),
        (runGrouping isM xs []).1 = specRunGroups isM xs)
    ∧ (runGrouping authorsMarker c1Example []).1 = [["A"], ["B", "C"]]
    ∧ (runGrouping authorsMarker c1Example []).2 = ["D"] := by
  refine ⟨?_, by decide, by decide⟩
  intro isM xs
  rw [runGrouping_fst, consHdBuf_nil_buf]
  rfl

/-- C2 counterexample: in a run where the browser launched and the viewport
step then threw before the callback could start, the termination step
`closeBrowser` never executes, so it does not execute exactly once on this
exit path. -/
theorem setup_throw_skips_browser_close :
    (automateBrowserRun viewportFailBehavior).1.contains BAction.launch = true
    ∧ (automateBrowserRun viewportFailBehavior).1.count BAction.closeBrowser = 0 := by
  decide

/-- C2 amended: whenever launch and all three setup steps succeed, so that the
page-script callback actually runs, `browser.close` executes exactly once
before the promise settles, whether the callback returns normally or throws;
if a setup step after launch throws before the callback runs, the close step
is skipped entirely. -/
theorem browser_close_once_when_callback_runs (α : Type) (b : BrowserBehavior α)
    (h1 : b.launchOk = true) (h2 : b.pagesOk = true) (h3 : b.viewportOk = true)
    (h4 : b.preloadOk = true) :
    (automateBrowserRun b).1.count BAction.closeBrowser = 1 := by
  unfold automateBrowserRun
  rw [h1, h2, h3, h4]
  cases b.callbackResult <;> rfl

/-- Witness for the amended C2 statement: with a throwing page script, the
close step still runs exactly once. -/
theorem browser_close_once_when_callback_runs_witness :
    (automateBrowserRun callbackThrowBehavior).1.count BAction.closeBrowser = 1 :=
  browser_close_once_when_callback_runs String callbackThrowBehavior rfl rfl rfl rfl

/-- C3: the `automateBrowser` present under src/ never performs a
request-interception installation step on any execution path; the
caller-supplied policy object is not a parameter of the function and no
request-level gate is installed before navigation. -/
theorem automateBrowser_no_interception_step (α : Type) (b : BrowserBehavior α) :
    (automateBrowserRun b).1.contains BAction.setRequestInterception = false := by
  obtain ⟨l, p, v, pr, cb⟩ := b
  cases l <;> cases p <;> cases v <;> cases pr <;> cases cb <;> rfl

/-- C4: under the spec-modelled interception evaluator, a request whose URL
matches a prefix of a block-mode domain rule is denied regardless of any
unblock-mode resource-type rule. -/
theorem domain_block_overrides_unblock (cfg : NetworkConfig) (url rtype : String)
    (h : domainBlockMatch cfg url = true) :
    evalRequestAllowed cfg url rtype = false := by
  simp [evalRequestAllowed, h]

/-- Witness for C4: the rule set supplied by `getPages` unblocks resource type
script, yet a script request to a blocked domain prefix is denied. -/
theorem domain_block_overrides_unblock_witness :
    getPagesNetworkConfig.resource = some { method := "unblock", type := ["document", "script"] }
    ∧ evalRequestAllowed getPagesNetworkConfig "https://hm.baidu.com/hm.js" "script" = false :=
  ⟨rfl, domain_block_overrides_unblock getPagesNetworkConfig
    "https://hm.baidu.com/hm.js" "script" (by decide)⟩

/-- C5: the pending buffer is NOT scoped to a single grouping pass.  In the
document leakDoc the authors pass leaves the unterminated fragment Zed in the
module-level buffer, and the genres pass of the same search call then emits it
inside its first group. -/
theorem memo_leaks_between_passes :
    (runGrouping authorsMarker leakDoc.authorsEls []).2 = ["Zed"]
    ∧ (searchExtract leakDoc []).1.map SearchRecord.genres = [some ["Zed", "Horror"]] := by
  decide

/-- C6: search extraction is NOT a pure read.  Running the extraction twice
over the same immutable document idemDoc, with the module-level buffer
threaded from the first run into the second as in the source, yields different
author lists, so the two record sequences differ. -/
theorem search_extraction_not_idempotent :
    (searchExtract idemDoc []).1.map SearchRecord.authors = [some ["A"]]
    ∧ (searchExtract idemDoc (searchExtract idemDoc []).2).1.map SearchRecord.authors
        = [some ["D", "A"]]
    ∧ decide ((searchExtract idemDoc []).1
        = (searchExtract idemDoc (searchExtract idemDoc []).2).1) = false := by
  decide

/-- C7 counterexample: on tokens with numerator 4.3 and denominator 0 the
rating extractor produces the percentage Infinity%, not NaN%. -/
theorem rating_zero_denominator_not_nan :
    (ratingFromTokens zeroDenTokens).ratingPercentage = "Infinity%"
    ∧ ((ratingFromTokens zeroDenTokens).ratingPercentage == "NaN%") = false := by
  decide

/-- C7 amended: on tokens carrying numerator 4.3 at index 1 and denominator 5
at index 3 the extractor returns percentage 86.00% and stars 4.3 / 5; a
non-numeric denominator yields NaN%, as does a zero denominator with a zero
numerator; a zero denominator with a positive numerator yields Infinity%
rather than NaN%. -/
theorem rating_parser_behaviour :
    ((ratingFromTokens ratingExampleTokens).ratingPercentage = "86.00%"
      ∧ (ratingFromTokens ratingExampleTokens).ratingStars = "4.3 / 5")
    ∧ (∀ ts : List String, jsNumberOfOption ts[3]? = JSNum.nan →
        (ratingFromTokens ts).ratingPercentage = "NaN%")
    ∧ (∀ ts : List String, jsNumberOfOption ts[1]? = JSNum.fin ⟨0, 1⟩ →
        jsNumberOfOption ts[3]? = JSNum.fin ⟨0, 1⟩ →
        (ratingFromTokens ts).ratingPercentage = "NaN%")
    ∧ (∀ (ts : List String) (q : Q), jsNumberOfOption ts[1]? = JSNum.fin q →
        0 < q.num → jsNumberOfOption ts[3]? = JSNum.fin ⟨0, 1⟩ →
        (ratingFromTokens ts).ratingPercentage = "Infinity%") := by
  refine ⟨by decide, ?_, ?_, ?_⟩
  · intro ts h
    show toFixed2 (jsMul (jsDiv (jsNumberOfOption ts[1]?) (jsNumberOfOption ts[3]?))
      (JSNum.fin 100)) ++ "%" = "NaN%"
    rw [h, jsDiv_nan_right]
    decide
  · intro ts h1 h3
    show toFixed2 (jsMul (jsDiv (jsNumberOfOption ts[1]?) (jsNumberOfOption ts[3]?))
      (JSNum.fin 100)) ++ "%" = "NaN%"
    rw [h1, h3]
    decide
  · intro ts q h1 hq h3
    show toFixed2 (jsMul (jsDiv (jsNumberOfOption ts[1]?) (jsNumberOfOption ts[3]?))
      (JSNum.fin 100)) ++ "%" = "Infinity%"
    rw [h1, h3]
    have hdiv : jsDiv (JSNum.fin q) (JSNum.fin ⟨0, 1⟩) = JSNum.inf := by
      simp only [jsDiv]
      rw [if_pos trivial, if_neg (by omega), if_pos hq]
    rw [hdiv]
    decide

/-- Witness for the amended C7 statement at concrete token vectors. -/
theorem rating_parser_behaviour_witness :
    (ratingFromTokens ["x", "4.3", "/", "abc"]).ratingPercentage = "NaN%"
    ∧ (ratingFromTokens ["x", "0", "/", "0"]).ratingPercentage = "NaN%"
    ∧ (ratingFromTokens ["x", "4.3", "/", "0"]).ratingPercentage = "Infinity%" :=
  ⟨rating_parser_behaviour.2.1 _ (by decide),
   rating_parser_behaviour.2.2.1 _ (by decide) (by decide),
   rating_parser_behaviour.2.2.2 _ ⟨43, 10⟩ (by decide) (by decide) (by decide)⟩

/-- C8: each public operation rejects a failing precondition before any
network or browser activity: a null/undefined URL for getMangaMeta and
getPages, a page below 1 for getLatestUpdates, and a non-number page for
search all reject with the validation message and zero fetches or launches. -/
theorem validation_precedes_network :
    (∀ (url : JSVal) (b : BrowserBehavior String), jsEqNull url = true →
        getMangaMetaRun url b = (Settle.rejected "Missing argument \"url\" is required", 0))
    ∧ (∀ (url : JSVal) (b : BrowserBehavior (List String)), jsEqNull url = true →
        getPagesRun url b = (Settle.rejected "Missing argument \"url\" is required", 0))
    ∧ (∀ (q : Q) (net : Except String (List String)), q < 1 →
        getLatestUpdatesRun (JSNum.fin q) net
          = (Settle.rejected "Argument \"page\" must be greater than or equal to 1", 0))
    ∧ (∀ (pv : JSVal) (memo0 : List String) (net : Except String SearchDoc),
        (jsTypeof pv == "number") = false →
        searchRun pv memo0 net = (Settle.rejected "\"page\" must be a number", 0)) := by
  refine ⟨?_, ?_, ?_, ?_⟩
  · intro url b h
    simp [getMangaMetaRun, h]
  · intro url b h
    simp [getPagesRun, h]
  · intro q net h
    simp [getLatestUpdatesRun, jsLt, h]
  · intro pv memo0 net h
    simp [searchRun, searchValidate, h]

/-- Witness for C8 at concrete failing arguments. -/
theorem validation_precedes_network_witness :
    getMangaMetaRun JSVal.null idleBrowser
      = (Settle.rejected "Missing argument \"url\" is required", 0)
    ∧ getPagesRun JSVal.undefined idleBrowserPages
      = (Settle.rejected "Missing argument \"url\" is required", 0)
    ∧ getLatestUpdatesRun (JSNum.fin 0) (Except.ok ([] : List String))
      = (Settle.rejected "Argument \"page\" must be greater than or equal to 1", 0)
    ∧ searchRun (JSVal.str "2") [] (Except.error "net")
      = (Settle.rejected "\"page\" must be a number", 0) :=
  ⟨validation_precedes_network.1 JSVal.null idleBrowser rfl,
   validation_precedes_network.2.1 JSVal.undefined idleBrowserPages rfl,
   validation_precedes_network.2.2.1 0 (Except.ok []) (by decide),
   validation_precedes_network.2.2.2 (JSVal.str "2") [] (Except.error "net") rfl⟩

/-- C9: for every input and environment, search and getPages each emit exactly
one settlement, delivered identically on both channels: either the callback
receives the value and the promise resolves with that same value, or the
callback receives the error and the promise rejects with that same error. -/
theorem dual_channels_agree :
    (∀ (pv : JSVal) (memo0 : List String) (net : Except String SearchDoc),
        (∃ v, searchEvents pv memo0 net = successEvents v
              ∧ (searchRun pv memo0 net).1 = Settle.resolved v)
        ∨ (∃ m, searchEvents pv memo0 net = failureEvents m
              ∧ (searchRun pv memo0 net).1 = Settle.rejected m))
    ∧ (∀ (url : JSVal) (b : BrowserBehavior (List String)),
        (∃ v, getPagesEvents url b = successEvents v
              ∧ (getPagesRun url b).1 = Settle.resolved v)
        ∨ (∃ m, getPagesEvents url b = failureEvents m
              ∧ (getPagesRun url b).1 = Settle.rejected m)) := by
  constructor
  · intro pv memo0 net
    unfold searchEvents searchRun
    cases hv : searchValidate pv with
    | some m => exact Or.inr ⟨m, rfl, rfl⟩
    | none =>
      cases net with
      | ok d => exact Or.inl ⟨(searchExtract d memo0).1, rfl, rfl⟩
      | error e => exact Or.inr ⟨e, rfl, rfl⟩
  · intro url b
    unfold getPagesEvents getPagesRun
    by_cases h : jsEqNull url = true
    · simp only [h, if_true]
      exact Or.inr ⟨_, rfl, rfl⟩
    · simp only [Bool.not_eq_true] at h
      simp only [h, Bool.false_eq_true, if_false]
      cases hr : (automateBrowserRun b).2 with
      | ok v => exact Or.inl ⟨v, rfl, rfl⟩
      | error e => exact Or.inr ⟨e, rfl, rfl⟩

/-- C10: the rejection branch with the message about a missing page argument
is unreachable in search: a missing page defaults to 1 before validation, and
for every possible page value the validation either passes or produces the
non-number rejection, never the missing-argument rejection. -/
theorem missing_page_branch_unreachable :
    pageDefault JSVal.undefined = JSVal.number (JSNum.fin 1)
    ∧ ∀ v : JSVal, searchValidate (pageDefault v) = none
        ∨ searchValidate (pageDefault v) = some "\"page\" must be a number" := by
  refine ⟨rfl, ?_⟩
  intro v
  cases v with
  | undefined => exact Or.inl rfl
  | null => exact Or.inr rfl
  | number n => exact Or.inl rfl
  | str s => exact Or.inr rfl
